import Mathlib

/-!
Verification development for the CampusQuery browser front end
(`static/js` application controller `CampusQueryApp`).

The JavaScript controller is shallowly embedded: the mutable fields of the
`CampusQueryApp` instance together with the DOM state the handlers read and
write become an explicit `AppState` record, each event handler becomes a pure
function `AppState → AppState` (paired with a list of observable `Effect`s
where the handler performs I/O such as toasts, alerts, network requests or
canvas renders), and the asynchronous render pipeline is modelled up to its
suspension points.  Numeric fields use `ℚ` for the zoom scale (JavaScript
numbers; all values reachable here are exact quarters) and `ℕ` for page
numbers.
-/

namespace CampusQuery

/-- JavaScript `Math.round`: rounds half-way cases toward positive infinity,
so `Math.round(x) = ⌊x + 1/2⌋`. -/
def jsRound (x : ℚ) : ℤ := (x + 1/2).floor

/-- JavaScript `String.prototype.trim`: drops whitespace from both ends of
the string. -/
def jsTrim (s : String) : String :=
  ⟨((s.data.dropWhile Char.isWhitespace).reverse.dropWhile Char.isWhitespace).reverse⟩

/-- One entry of the `sources` array of a successful `/api/query` response
(fields used by the front end). -/
structure Source where
  filename : String
  content_preview : String
  content_snippet : String
  relevance : ℚ
  is_web_result : Bool
deriving DecidableEq, Repr

/-- A successful `/api/query` response body (fields used by the front end). -/
structure QueryResult where
  answer : String
  detailed_answer : String
  sources : Option (List Source)
  justification : String
deriving DecidableEq, Repr

/-- The data rendered into one source card by `displayResults`
(the `doc-card` div built for each entry of `data.sources`). -/
structure SourceCard where
  icon : String
  filename : String
  preview : String
  relevancePercent : ℤ
  typeLabel : String
  is_web_result : Bool
deriving DecidableEq, Repr

/-- The card `displayResults` builds for one source `s`:
`icon` and `type` depend on `s.is_web_result`, and
`relevancePercent = Math.round(s.relevance * 100)`. -/
def mkSourceCard (s : Source) : SourceCard :=
  { icon := if s.is_web_result then "🌐" else "📄"
    filename := s.filename
    preview := s.content_preview
    relevancePercent := jsRound (s.relevance * 100)
    typeLabel := if s.is_web_result then "Web Result" else "PDF Document"
    is_web_result := s.is_web_result }

/-- The list of source cards appended to `#documentsContainer` by
`displayResults`: guarded by `data.sources && data.sources.length`,
then one card per entry via `data.sources.forEach`. -/
def displayResultsCards : Option (List Source) → List SourceCard
  | none => []
  | some ss => if ss.length = 0 then [] else ss.map mkSourceCard

/-- The handle returned by `pdfjsLib.getDocument(...).promise`
(only `numPages` is read by this code). -/
structure PdfDoc where
  numPages : ℕ
deriving DecidableEq, Repr

/-- Observable side effects performed by the handlers. -/
inductive Effect where
  | toast (msg level : String)
  | showAlert (msg level : String)
  | showLoading (msg : String)
  | disableAskButton
  | networkPost (url body : String)
  | startRender (page : ℕ)
  | setZoomDisplay (text : String)
  | clearBrowserSelection
deriving DecidableEq, Repr

/-- The mutable state of a `CampusQueryApp` instance together with the DOM
state its handlers read and write (modal visibility, the detail card and its
toggle button, the selection display box). -/
structure AppState where
  currentQuery : String
  currentResult : Option QueryResult
  detailVisible : Bool
  selectedText : String
  currentPdfUrl : String
  currentDocumentName : String
  pdfDoc : Option PdfDoc
  pageNum : ℕ
  scale : ℚ
  pageRendering : Bool
  pageNumPending : Option ℕ
  modalHidden : Bool
  detailCardHidden : Bool
  detailBtnLabel : String
  selectionDisplayVisible : Bool
  selectionBoxText : String
deriving DecidableEq, Repr

/-- The `#detailToggle` label written by `hideResults` and by the hide branch
of `toggleDetailedExplanation` (also its markup in the page). -/
def detailsLabel : String := "<span>üìñ</span> Details"

/-- The `#detailToggle` label written by the show branch of
`toggleDetailedExplanation`. -/
def hideDetailsLabel : String := "<span>üìñ</span> Hide Details"

/-- `cleanupModal`: runs whenever the snippet modal is closed; clears the
selected text, the PDF document handle, and the current PDF URL and
document name. -/
def cleanupModal (st : AppState) : AppState :=
  { st with
    selectedText := ""
    pdfDoc := none
    currentPdfUrl := ""
    currentDocumentName := "" }

/-- The `#modalClose` click handler bound in `bindModal`: hides the modal and
runs `cleanupModal`. -/
def closeButtonClick (st : AppState) : AppState :=
  cleanupModal { st with modalHidden := true }

/-- The `Escape` keydown handler bound in `bindModal`: if the modal is not
already hidden, hides it and runs `cleanupModal`; otherwise does nothing. -/
def escapeKeydown (st : AppState) : AppState :=
  if st.modalHidden then st
  else cleanupModal { st with modalHidden := true }

/-- The modal click handler bound in `bindModal`: if the click target is the
modal backdrop itself (`e.target === modal`), hides the modal and runs
`cleanupModal`; otherwise does nothing. -/
def backdropClick (st : AppState) (targetIsModal : Bool) : AppState :=
  if targetIsModal then cleanupModal { st with modalHidden := true }
  else st

/-- The synchronous head of `renderPageAccurately(num)` up to its first
suspension point: if a render is in flight (`pageRendering`), record `num` as
the pending page and return without starting a render; otherwise set the
in-flight flag and start rendering `num` (returned as `some num`). -/
def renderPageAccurately (st : AppState) (num : ℕ) : AppState × Option ℕ :=
  if st.pageRendering then ({ st with pageNumPending := some num }, none)
  else ({ st with pageRendering := true }, some num)

/-- The completion tail of `renderPageAccurately`: clears the in-flight flag,
then, if a page is pending, calls `renderPageAccurately` on it (which starts
that render, since the flag is now clear) and nulls the pending slot.
Returns the page whose render was started, if any. -/
def finishRender (st : AppState) : AppState × Option ℕ :=
  let st0 := { st with pageRendering := false }
  match st0.pageNumPending with
  | some m =>
      let r := renderPageAccurately st0 m
      ({ r.1 with pageNumPending := none }, r.2)
  | none => (st0, none)

/-- A sequence of calls to `renderPageAccurately`, one per element of the
list, collecting the pages whose renders were actually started. -/
def renderRequestSeq : AppState → List ℕ → AppState × List ℕ
  | st, [] => (st, [])
  | st, n :: ns =>
      let r := renderPageAccurately st n
      let rest := renderRequestSeq r.1 ns
      (rest.1, r.2.toList ++ rest.2)

/-- `clearPDFSelection`: empties the stored selected text, hides the
selection display, drops the browser selection ranges and toasts. -/
def clearPDFSelection (st : AppState) : AppState × List Effect :=
  ({ st with selectedText := "", selectionDisplayVisible := false },
   [Effect.clearBrowserSelection, Effect.toast "Selection cleared" "info"])

/-- The debounced selection handler body installed by
`addAccurateSelectionHandler`: trims the browser selection string; if the
trimmed text is longer than 5 characters, stores it, writes it into the
selection box and shows the selection display; otherwise runs
`clearPDFSelection`. -/
def handleSelection (st : AppState) (rawSelection : String) : AppState × List Effect :=
  let selectedText := jsTrim rawSelection
  if 5 < selectedText.length then
    ({ st with
        selectedText := selectedText
        selectionBoxText := selectedText
        selectionDisplayVisible := true },
     [Effect.toast
        ("Selected " ++ toString selectedText.length ++
          " characters. Use buttons below to generate questions.") "success"])
  else
    clearPDFSelection st

/-- The `#prevPageBtn` click handler bound in `bindPDFNavigationControls`:
on page 1 (or below) only toasts; otherwise decrements the page number,
requests a render of it and clears the selection. -/
def prevPageClick (st : AppState) : AppState × List Effect :=
  if st.pageNum ≤ 1 then (st, [Effect.toast "Already on first page" "info"])
  else
    let st1 := { st with pageNum := st.pageNum - 1 }
    let r := renderPageAccurately st1 st1.pageNum
    let c := clearPDFSelection r.1
    (c.1, (r.2.map Effect.startRender).toList ++ c.2)

/-- The `#nextPageBtn` click handler bound in `bindPDFNavigationControls`:
reads `this.pdfDoc.numPages` (so it fails when no document is loaded,
modelled as `none`); on the last page (or beyond) only toasts; otherwise
increments the page number, requests a render of it and clears the
selection. -/
def nextPageClick (st : AppState) : Option (AppState × List Effect) :=
  match st.pdfDoc with
  | none => none
  | some doc =>
      if doc.numPages ≤ st.pageNum then
        some (st, [Effect.toast "Already on last page" "info"])
      else
        let st1 := { st with pageNum := st.pageNum + 1 }
        let r := renderPageAccurately st1 st1.pageNum
        let c := clearPDFSelection r.1
        some (c.1, (r.2.map Effect.startRender).toList ++ c.2)

/-- The `#zoomInBtn` click handler: sets `scale := min(scale + 0.25, 3.0)`,
requests a render of the current page, updates the zoom display, clears the
selection and toasts. -/
def zoomInClick (st : AppState) : AppState × List Effect :=
  let st1 := { st with scale := min (st.scale + 1/4) 3 }
  let r := renderPageAccurately st1 st1.pageNum
  let zoomText := toString (jsRound (st1.scale * 100)) ++ "%"
  let c := clearPDFSelection r.1
  (c.1,
   (r.2.map Effect.startRender).toList ++ [Effect.setZoomDisplay zoomText] ++ c.2 ++
     [Effect.toast ("Zoomed to " ++ zoomText) "info"])

/-- The `#zoomOutBtn` click handler: sets `scale := max(scale - 0.25, 0.5)`,
requests a render of the current page, updates the zoom display, clears the
selection and toasts. -/
def zoomOutClick (st : AppState) : AppState × List Effect :=
  let st1 := { st with scale := max (st.scale - 1/4) (1/2) }
  let r := renderPageAccurately st1 st1.pageNum
  let zoomText := toString (jsRound (st1.scale * 100)) ++ "%"
  let c := clearPDFSelection r.1
  (c.1,
   (r.2.map Effect.startRender).toList ++ [Effect.setZoomDisplay zoomText] ++ c.2 ++
     [Effect.toast ("Zoomed to " ++ zoomText) "info"])

/-- A zoom control action: a click on `#zoomInBtn` or `#zoomOutBtn`. -/
inductive ZoomAction where
  | zoomIn
  | zoomOut
deriving DecidableEq, Repr

/-- The state after one zoom control click. -/
def zoomStep (st : AppState) : ZoomAction → AppState
  | ZoomAction.zoomIn => (zoomInClick st).1
  | ZoomAction.zoomOut => (zoomOutClick st).1

/-- The state after a sequence of zoom control clicks. -/
def zoomRun (st : AppState) (acts : List ZoomAction) : AppState :=
  acts.foldl zoomStep st

/-- A page navigation action: a click on `#prevPageBtn` or `#nextPageBtn`. -/
inductive NavAction where
  | prev
  | next
deriving DecidableEq, Repr

/-- The state after one page navigation click (when `#nextPageBtn` fails for
lack of a document the state is unchanged, as the thrown exception leaves
the instance fields untouched). -/
def navStep (st : AppState) : NavAction → AppState
  | NavAction.prev => (prevPageClick st).1
  | NavAction.next =>
      match nextPageClick st with
      | some p => p.1
      | none => st

/-- The state after a sequence of page navigation clicks. -/
def navRun (st : AppState) (acts : List NavAction) : AppState :=
  acts.foldl navStep st

/-- The synchronous head of `processQuery` up to its `await fetch`: reads and
trims `#queryInput` (an absent input reads as the empty string); if the
trimmed text is empty, shows a warning alert and returns; otherwise stores it
as the current query, shows the loading overlay, disables the ask button and
issues the POST to `/api/query`. -/
def processQueryStart (st : AppState) (inputValue : Option String) :
    AppState × List Effect :=
  let q := jsTrim (inputValue.getD "")
  if q = "" then
    (st, [Effect.showAlert "Please enter a question." "warn"])
  else
    ({ st with currentQuery := q },
     [Effect.showLoading "Processing your query‚Ä¶", Effect.disableAskButton,
      Effect.networkPost "/api/query" q])

/-- `toggleDetailedExplanation`: a no-op without a current result; otherwise
flips the detail card between hidden and shown, keeping `detailVisible` and
the `#detailToggle` label in sync. -/
def toggleDetailedExplanation (st : AppState) : AppState :=
  match st.currentResult with
  | none => st
  | some _ =>
      if st.detailVisible then
        { st with
            detailCardHidden := true
            detailBtnLabel := detailsLabel
            detailVisible := false }
      else
        { st with
            detailCardHidden := false
            detailBtnLabel := hideDetailsLabel
            detailVisible := true }

/-- All document-viewer document state is cleared: selected text, document
handle, PDF URL and document name. -/
def clearsDocState (st : AppState) : Prop :=
  st.selectedText = "" ∧ st.pdfDoc = none ∧
    st.currentPdfUrl = "" ∧ st.currentDocumentName = ""

instance (st : AppState) : Decidable (clearsDocState st) := by
  unfold clearsDocState; infer_instance

/-- The PDF position and render-pipeline fields are carried over unchanged
from `st0` to `st1`. -/
def keepsPdfPosition (st0 st1 : AppState) : Prop :=
  st1.pageNum = st0.pageNum ∧ st1.scale = st0.scale ∧
    st1.pageRendering = st0.pageRendering ∧ st1.pageNumPending = st0.pageNumPending

instance (st0 st1 : AppState) : Decidable (keepsPdfPosition st0 st1) := by
  unfold keepsPdfPosition; infer_instance

/-- A quiescent application state: the state right after the constructor runs
(all strings empty, no result, no document, page 1, scale 1, modal hidden
state as relevant to each scenario). -/
def exState : AppState :=
  { currentQuery := ""
    currentResult := none
    detailVisible := false
    selectedText := ""
    currentPdfUrl := ""
    currentDocumentName := ""
    pdfDoc := none
    pageNum := 1
    scale := 1
    pageRendering := false
    pageNumPending := none
    modalHidden := false
    detailCardHidden := true
    detailBtnLabel := detailsLabel
    selectionDisplayVisible := false
    selectionBoxText := "" }

/-- A concrete non-web source entry with 87% relevance. -/
def exSource : Source :=
  { filename := "brochure.pdf"
    content_preview := "preview text"
    content_snippet := "snippet text"
    relevance := 87/100
    is_web_result := false }

/-- A concrete successful query result. -/
def exResult : QueryResult :=
  { answer := "the answer"
    detailed_answer := "the detailed answer"
    sources := some [exSource]
    justification := "the justification" }

/-- A concrete state with the viewer open mid-session: document loaded, on
page 3 of 4, zoomed to 200%, a render in flight with page 2 pending, and a
stored text selection. -/
def exOpenViewer : AppState :=
  { exState with
      currentResult := some exResult
      selectedText := "selected words"
      currentPdfUrl := "/docs/brochure.pdf"
      currentDocumentName := "brochure.pdf"
      pdfDoc := some { numPages := 4 }
      pageNum := 3
      scale := 2
      pageRendering := true
      pageNumPending := some 2
      modalHidden := false }

/-- C1: a successful `/api/query` response with a non-empty `sources` array
produces exactly one source card per entry, and entry `i`'s card shows a
relevance percentage equal to `Math.round(relevance * 100)` of that entry. -/
theorem displayResults_one_card_per_source (sources : List Source) (i : ℕ)
    (hne : sources ≠ []) :
    (displayResultsCards (some sources)).length = sources.length ∧
    (displayResultsCards (some sources))[i]?.map SourceCard.relevancePercent =
      sources[i]?.map (fun s => jsRound (s.relevance * 100)) := by
  have hlen : sources.length ≠ 0 := fun h => hne (List.length_eq_zero.mp h)
  simp only [displayResultsCards]
  rw [if_neg hlen]
  refine ⟨List.length_map _ _, ?_⟩
  rw [List.getElem?_map]
  cases sources[i]? <;> rfl

theorem displayResults_one_card_per_source_witness :
    ([exSource] ≠ []) ∧
    ((displayResultsCards (some [exSource])).length = [exSource].length ∧
     (displayResultsCards (some [exSource]))[0]?.map SourceCard.relevancePercent =
       [exSource][0]?.map (fun s => jsRound (s.relevance * 100))) :=
  ⟨List.cons_ne_nil _ _,
   displayResults_one_card_per_source [exSource] 0 (List.cons_ne_nil _ _)⟩

/-- C2: submitting a query whose trimmed question text is empty shows a
warning alert, leaves the whole application state (in particular the current
query and current result) unchanged, and issues no network request. -/
theorem processQuery_empty_question (st : AppState) (inputValue : Option String)
    (u b : String) (h : jsTrim (inputValue.getD "") = "") :
    processQueryStart st inputValue =
      (st, [Effect.showAlert "Please enter a question." "warn"]) ∧
    Effect.networkPost u b ∉ (processQueryStart st inputValue).2 := by
  constructor
  · simp [processQueryStart, h]
  · simp [processQueryStart, h]

theorem processQuery_empty_question_witness :
    (jsTrim ((some "   ").getD "") = "") ∧
    (processQueryStart exState (some "   ") =
       (exState, [Effect.showAlert "Please enter a question." "warn"]) ∧
     Effect.networkPost "/api/query" "anything" ∉ (processQueryStart exState (some "   ")).2) :=
  ⟨by decide, processQuery_empty_question exState (some "   ") "/api/query" "anything" (by decide)⟩

/-- C5: with a document loaded and the current page equal to the document's
last page, a next-page click returns the state unchanged (same page number,
no render started, no pending page recorded) and only shows the
"Already on last page" info toast. -/
theorem nextPage_on_last_page (st : AppState) (doc : PdfDoc)
    (hdoc : st.pdfDoc = some doc) (hlast : st.pageNum = doc.numPages) :
    nextPageClick st = some (st, [Effect.toast "Already on last page" "info"]) := by
  unfold nextPageClick
  rw [hdoc]
  simp [hlast]

theorem nextPage_on_last_page_witness :
    ({ exOpenViewer with pageNum := 4 } : AppState).pdfDoc = some { numPages := 4 } ∧
    ({ exOpenViewer with pageNum := 4 } : AppState).pageNum = PdfDoc.numPages { numPages := 4 } ∧
    nextPageClick { exOpenViewer with pageNum := 4 } =
      some ({ exOpenViewer with pageNum := 4 },
            [Effect.toast "Already on last page" "info"]) :=
  ⟨rfl, rfl, nextPage_on_last_page { exOpenViewer with pageNum := 4 } { numPages := 4 } rfl rfl⟩

/-- C6: from a state where the detail card is hidden, the toggle button shows
its original label and `detailVisible` is false, clicking the Details toggle
twice leaves the card hidden, the original label restored and `detailVisible`
false again (whether or not a current result exists). -/
theorem detail_toggle_twice_restores (st : AppState)
    (hv : st.detailVisible = false) (hc : st.detailCardHidden = true)
    (hl : st.detailBtnLabel = detailsLabel) :
    (toggleDetailedExplanation (toggleDetailedExplanation st)).detailCardHidden = true ∧
    (toggleDetailedExplanation (toggleDetailedExplanation st)).detailBtnLabel = detailsLabel ∧
    (toggleDetailedExplanation (toggleDetailedExplanation st)).detailVisible = false := by
  cases hres : st.currentResult with
  | none => simp [toggleDetailedExplanation, hres, hv, hc, hl]
  | some r => simp [toggleDetailedExplanation, hres, hv]

theorem detail_toggle_twice_restores_witness :
    ({ exState with currentResult := some exResult } : AppState).detailVisible = false ∧
    (toggleDetailedExplanation (toggleDetailedExplanation
        { exState with currentResult := some exResult })).detailCardHidden = true ∧
    (toggleDetailedExplanation (toggleDetailedExplanation
        { exState with currentResult := some exResult })).detailBtnLabel = detailsLabel ∧
    (toggleDetailedExplanation (toggleDetailedExplanation
        { exState with currentResult := some exResult })).detailVisible = false :=
  ⟨rfl, detail_toggle_twice_restores { exState with currentResult := some exResult } rfl rfl rfl⟩

/-- C7 (counterexample): closing the viewer from a mid-session state leaves
the page number at 3, the zoom scale at 2, the rendering flag set and page 2
still pending — so these components of the PDF session state are not reset
to their initial values (page 1, scale 1, no render in flight, nothing
pending) when the modal closes. -/
theorem modal_close_not_full_reset_cex :
    (closeButtonClick exOpenViewer).pageNum = 3 ∧
    (closeButtonClick exOpenViewer).scale = 2 ∧
    (closeButtonClick exOpenViewer).pageRendering = true ∧
    (closeButtonClick exOpenViewer).pageNumPending = some 2 ∧
    ¬ ((closeButtonClick exOpenViewer).pageNum = 1 ∧
       (closeButtonClick exOpenViewer).scale = 1 ∧
       (closeButtonClick exOpenViewer).pageRendering = false ∧
       (closeButtonClick exOpenViewer).pageNumPending = none) :=
  ⟨rfl, rfl, rfl, rfl, fun h => absurd h.1 (by decide)⟩

/-- C7 (amended): whenever the viewer modal closes — by the close button, the
Escape key while the modal is shown, or a click on the modal backdrop — the
document-bound state (selected text, document handle, PDF URL, document
name) is cleared, while the page number, zoom scale, and pending/rendering
flags are carried over unchanged (they are re-initialized only when a viewer
opens again). -/
theorem modal_close_resets_doc_fields_only (st : AppState) (b : Bool)
    (hm : st.modalHidden = false) (hb : b = true) :
    (clearsDocState (closeButtonClick st) ∧ keepsPdfPosition st (closeButtonClick st)) ∧
    (clearsDocState (escapeKeydown st) ∧ keepsPdfPosition st (escapeKeydown st)) ∧
    (clearsDocState (backdropClick st b) ∧ keepsPdfPosition st (backdropClick st b)) := by
  subst hb
  simp [closeButtonClick, escapeKeydown, backdropClick, cleanupModal, hm,
        clearsDocState, keepsPdfPosition]

theorem modal_close_resets_doc_fields_only_witness :
    exOpenViewer.modalHidden = false ∧
    ((clearsDocState (closeButtonClick exOpenViewer) ∧
        keepsPdfPosition exOpenViewer (closeButtonClick exOpenViewer)) ∧
     (clearsDocState (escapeKeydown exOpenViewer) ∧
        keepsPdfPosition exOpenViewer (escapeKeydown exOpenViewer)) ∧
     (clearsDocState (backdropClick exOpenViewer true) ∧
        keepsPdfPosition exOpenViewer (backdropClick exOpenViewer true))) :=
  ⟨rfl, modal_close_resets_doc_fields_only exOpenViewer true rfl rfl⟩

/-- C8: each of the three close paths (close button; Escape with the modal
shown; a click landing on the modal backdrop itself) ends with the selected
text set to the empty string, the document handle set to `none`, and the PDF
URL and document name set to empty strings. -/
theorem modal_close_clears_doc_state (st : AppState) (b : Bool)
    (hm : st.modalHidden = false) (hb : b = true) :
    clearsDocState (closeButtonClick st) ∧
    clearsDocState (escapeKeydown st) ∧
    clearsDocState (backdropClick st b) := by
  subst hb
  simp [closeButtonClick, escapeKeydown, backdropClick, cleanupModal, hm, clearsDocState]

theorem modal_close_clears_doc_state_witness :
    exOpenViewer.modalHidden = false ∧
    (clearsDocState (closeButtonClick exOpenViewer) ∧
     clearsDocState (escapeKeydown exOpenViewer) ∧
     clearsDocState (backdropClick exOpenViewer true)) :=
  ⟨rfl, modal_close_clears_doc_state exOpenViewer true rfl rfl⟩

/-- C9: the debounced selection handler has the fixed threshold 5: when the
trimmed selection is longer than 5 characters it is stored as the selected
text and shown in the selection box with the display visible; otherwise the
stored selection is cleared and the display hidden. -/
theorem selection_length_threshold (st : AppState) (raw : String) :
    (5 < (jsTrim raw).length →
       (handleSelection st raw).1.selectedText = jsTrim raw ∧
       (handleSelection st raw).1.selectionBoxText = jsTrim raw ∧
       (handleSelection st raw).1.selectionDisplayVisible = true) ∧
    ((jsTrim raw).length ≤ 5 →
       (handleSelection st raw).1.selectedText = "" ∧
       (handleSelection st raw).1.selectionDisplayVisible = false) := by
  constructor
  · intro h
    simp [handleSelection, h]
  · intro h
    have h2 : ¬ 5 < (jsTrim raw).length := not_lt.mpr h
    simp [handleSelection, clearPDFSelection, h2]

theorem selection_length_threshold_witness :
    (5 < (jsTrim "  academic calendar  ").length ∧
     (handleSelection exState "  academic calendar  ").1.selectedText =
       jsTrim "  academic calendar  " ∧
     (handleSelection exState "  academic calendar  ").1.selectionBoxText =
       jsTrim "  academic calendar  " ∧
     (handleSelection exState "  academic calendar  ").1.selectionDisplayVisible = true) ∧
    ((jsTrim " hi ").length ≤ 5 ∧
     (handleSelection exState " hi ").1.selectedText = "" ∧
     (handleSelection exState " hi ").1.selectionDisplayVisible = false) :=
  ⟨⟨by decide, (selection_length_threshold exState "  academic calendar  ").1 (by decide)⟩,
   ⟨by decide, (selection_length_threshold exState " hi ").2 (by decide)⟩⟩

lemma zoomInClick_scale (st : AppState) :
    (zoomInClick st).1.scale = min (st.scale + 1/4) 3 := by
  simp only [zoomInClick, renderPageAccurately, clearPDFSelection]
  split <;> rfl

lemma zoomOutClick_scale (st : AppState) :
    (zoomOutClick st).1.scale = max (st.scale - 1/4) (1/2) := by
  simp only [zoomOutClick, renderPageAccurately, clearPDFSelection]
  split <;> rfl

lemma zoomStep_scale_bounds (st : AppState) (a : ZoomAction)
    (h1 : 1/2 ≤ st.scale) (h2 : st.scale ≤ 3) :
    1/2 ≤ (zoomStep st a).scale ∧ (zoomStep st a).scale ≤ 3 := by
  cases a with
  | zoomIn =>
      rw [zoomStep, zoomInClick_scale]
      constructor
      · exact le_min (by linarith) (by norm_num)
      · exact min_le_right _ _
  | zoomOut =>
      rw [zoomStep, zoomOutClick_scale]
      constructor
      · exact le_max_right _ _
      · exact max_le (by linarith) (by norm_num)

lemma zoomRun_scale_bounds (acts : List ZoomAction) :
    ∀ st : AppState, 1/2 ≤ st.scale → st.scale ≤ 3 →
      1/2 ≤ (zoomRun st acts).scale ∧ (zoomRun st acts).scale ≤ 3 := by
  induction acts with
  | nil => exact fun st h1 h2 => ⟨h1, h2⟩
  | cons a as ih =>
      intro st h1 h2
      have hstep := zoomStep_scale_bounds st a h1 h2
      exact ih (zoomStep st a) hstep.1 hstep.2

/-- C3: starting from the viewer's initial zoom scale 1.0, every sequence of
zoom-in and zoom-out clicks keeps the scale within `[0.5, 3.0]` (each
increment sets it to `min(scale + 0.25, 3.0)`, each decrement to
`max(scale - 0.25, 0.5)`). -/
theorem zoom_scale_clamped (st : AppState) (acts : List ZoomAction)
    (h : st.scale = 1) :
    1/2 ≤ (zoomRun st acts).scale ∧ (zoomRun st acts).scale ≤ 3 :=
  zoomRun_scale_bounds acts st (by rw [h]; norm_num) (by rw [h]; norm_num)

theorem zoom_scale_clamped_witness :
    exState.scale = 1 ∧
    (1/2 ≤ (zoomRun exState
        [ZoomAction.zoomOut, ZoomAction.zoomOut, ZoomAction.zoomOut, ZoomAction.zoomIn]).scale ∧
     (zoomRun exState
        [ZoomAction.zoomOut, ZoomAction.zoomOut, ZoomAction.zoomOut, ZoomAction.zoomIn]).scale ≤ 3) :=
  ⟨rfl, zoom_scale_clamped exState
      [ZoomAction.zoomOut, ZoomAction.zoomOut, ZoomAction.zoomOut, ZoomAction.zoomIn] rfl⟩

lemma renderRequestSeq_inflight (ns : List ℕ) :
    ∀ st : AppState, st.pageRendering = true → ∀ l : ℕ, ns.getLast? = some l →
      renderRequestSeq st ns = ({ st with pageNumPending := some l }, []) := by
  induction ns with
  | nil => intro st h l hl; simp at hl
  | cons n ns ih =>
      intro st h l hl
      have hr : renderPageAccurately st n = ({ st with pageNumPending := some n }, none) := by
        simp [renderPageAccurately, h]
      cases ns with
      | nil =>
          simp only [List.getLast?_singleton, Option.some_inj] at hl
          subst hl
          show ((renderRequestSeq (renderPageAccurately st n).1 []).1,
                (renderPageAccurately st n).2.toList ++
                  (renderRequestSeq (renderPageAccurately st n).1 []).2) = _
          rw [hr]
          rfl
      | cons m ms =>
          rw [List.getLast?_cons_cons] at hl
          have hrec := ih { st with pageNumPending := some n } h l hl
          show ((renderRequestSeq (renderPageAccurately st n).1 (m :: ms)).1,
                (renderPageAccurately st n).2.toList ++
                  (renderRequestSeq (renderPageAccurately st n).1 (m :: ms)).2) = _
          rw [hr, hrec]
          rfl

/-- C4: while a render is in flight, each of a sequence of render requests
only overwrites the single pending page slot (no render starts), the slot
ends holding the most recent request, and when the in-flight render completes
exactly that page's render is started and the slot is cleared — so the
intermediate page numbers are never rendered. -/
theorem render_requests_coalesced (st : AppState) (ns : List ℕ) (l : ℕ)
    (hr : st.pageRendering = true) (hl : ns.getLast? = some l) :
    (renderRequestSeq st ns).2 = [] ∧
    (renderRequestSeq st ns).1.pageRendering = true ∧
    (renderRequestSeq st ns).1.pageNumPending = some l ∧
    (finishRender (renderRequestSeq st ns).1).2 = some l ∧
    (finishRender (renderRequestSeq st ns).1).1.pageNumPending = none ∧
    (finishRender (renderRequestSeq st ns).1).1.pageRendering = true := by
  have h := renderRequestSeq_inflight ns st hr l hl
  rw [h]
  exact ⟨rfl, hr, rfl, by simp [finishRender, renderPageAccurately],
         by simp [finishRender, renderPageAccurately],
         by simp [finishRender, renderPageAccurately]⟩

theorem render_requests_coalesced_witness :
    exOpenViewer.pageRendering = true ∧
    ([2, 3, 4] : List ℕ).getLast? = some 4 ∧
    ((renderRequestSeq exOpenViewer [2, 3, 4]).2 = [] ∧
     (renderRequestSeq exOpenViewer [2, 3, 4]).1.pageRendering = true ∧
     (renderRequestSeq exOpenViewer [2, 3, 4]).1.pageNumPending = some 4 ∧
     (finishRender (renderRequestSeq exOpenViewer [2, 3, 4]).1).2 = some 4 ∧
     (finishRender (renderRequestSeq exOpenViewer [2, 3, 4]).1).1.pageNumPending = none ∧
     (finishRender (renderRequestSeq exOpenViewer [2, 3, 4]).1).1.pageRendering = true) :=
  ⟨rfl, rfl, render_requests_coalesced exOpenViewer [2, 3, 4] 4 rfl rfl⟩

lemma navStep_prev (st : AppState) :
    (navStep st NavAction.prev).pdfDoc = st.pdfDoc ∧
    (navStep st NavAction.prev).pageNum =
      (if st.pageNum ≤ 1 then st.pageNum else st.pageNum - 1) := by
  by_cases h : st.pageNum ≤ 1
  · simp [navStep, prevPageClick, h]
  · by_cases h2 : st.pageRendering <;>
      simp [navStep, prevPageClick, renderPageAccurately, clearPDFSelection, h, h2]

lemma navStep_next (st : AppState) (doc : PdfDoc) (hdoc : st.pdfDoc = some doc) :
    (navStep st NavAction.next).pdfDoc = some doc ∧
    (navStep st NavAction.next).pageNum =
      (if doc.numPages ≤ st.pageNum then st.pageNum else st.pageNum + 1) := by
  by_cases h : doc.numPages ≤ st.pageNum
  · simp [navStep, nextPageClick, hdoc, h]
  · by_cases h2 : st.pageRendering <;>
      simp [navStep, nextPageClick, renderPageAccurately, clearPDFSelection, hdoc, h, h2]

lemma navStep_inv (doc : PdfDoc) (st : AppState) (a : NavAction)
    (hdoc : st.pdfDoc = some doc) (h1 : 1 ≤ st.pageNum) (h2 : st.pageNum ≤ doc.numPages) :
    (navStep st a).pdfDoc = some doc ∧ 1 ≤ (navStep st a).pageNum ∧
      (navStep st a).pageNum ≤ doc.numPages := by
  cases a with
  | prev =>
      obtain ⟨hd, hp⟩ := navStep_prev st
      refine ⟨hd.trans hdoc, ?_, ?_⟩ <;> rw [hp] <;> split <;> omega
  | next =>
      obtain ⟨hd, hp⟩ := navStep_next st doc hdoc
      refine ⟨hd, ?_, ?_⟩ <;> rw [hp] <;> split <;> omega

lemma navRun_inv (doc : PdfDoc) (acts : List NavAction) :
    ∀ st : AppState, st.pdfDoc = some doc → 1 ≤ st.pageNum → st.pageNum ≤ doc.numPages →
      1 ≤ (navRun st acts).pageNum ∧ (navRun st acts).pageNum ≤ doc.numPages := by
  induction acts with
  | nil => exact fun st _ h1 h2 => ⟨h1, h2⟩
  | cons a as ih =>
      intro st hdoc h1 h2
      have hstep := navStep_inv doc st a hdoc h1 h2
      exact ih (navStep st a) hstep.1 hstep.2.1 hstep.2.2

/-- C10: with a document loaded and the page number initialized to 1, every
sequence of prev-page and next-page clicks keeps the page number within
`[1, numPages]`; and a prev-page click on page 1 returns the state unchanged
(no render started) with only the "Already on first page" info toast. -/
theorem page_navigation_bounds (st : AppState) (doc : PdfDoc) (acts : List NavAction)
    (hdoc : st.pdfDoc = some doc) (h1 : st.pageNum = 1) (hn : 1 ≤ doc.numPages) :
    (1 ≤ (navRun st acts).pageNum ∧ (navRun st acts).pageNum ≤ doc.numPages) ∧
    prevPageClick st = (st, [Effect.toast "Already on first page" "info"]) := by
  constructor
  · exact navRun_inv doc acts st hdoc (by omega) (by omega)
  · simp [prevPageClick, h1]

theorem page_navigation_bounds_witness :
    ({ exState with pdfDoc := some { numPages := 3 } } : AppState).pdfDoc =
      some { numPages := 3 } ∧
    ({ exState with pdfDoc := some { numPages := 3 } } : AppState).pageNum = 1 ∧
    1 ≤ PdfDoc.numPages { numPages := 3 } ∧
    ((1 ≤ (navRun { exState with pdfDoc := some { numPages := 3 } }
        [NavAction.prev, NavAction.next, NavAction.next, NavAction.next, NavAction.prev]).pageNum ∧
      (navRun { exState with pdfDoc := some { numPages := 3 } }
        [NavAction.prev, NavAction.next, NavAction.next, NavAction.next, NavAction.prev]).pageNum ≤
        PdfDoc.numPages { numPages := 3 }) ∧
     prevPageClick { exState with pdfDoc := some { numPages := 3 } } =
       ({ exState with pdfDoc := some { numPages := 3 } },
        [Effect.toast "Already on first page" "info"])) :=
  ⟨rfl, rfl, by decide,
   page_navigation_bounds { exState with pdfDoc := some { numPages := 3 } }
     { numPages := 3 }
     [NavAction.prev, NavAction.next, NavAction.next, NavAction.next, NavAction.prev]
     rfl rfl (by decide)⟩

end CampusQuery
